import Mathlib

/-!
A shallow embedding of the persistence-and-progress core of the
50-state license-plate game app: the `GameRepository` and
`SpottedStateRepository` (over the SQLite tables `games` and
`spotted_states`), the `GameService` orchestration layer, the
`GameCompletionService.getAchievementLevel` tier function, and the
`DatabaseMigrations` runner.

Modelling conventions:
  * The database is a `Db` record holding the two tables as lists of
    rows plus a strictly monotone `clock`; each insert stamps the row
    with the current clock and increments it.  This models
    `new Date().toISOString()` timestamps (distinct, increasing) and the
    `Date.now()`-based generated ids.
  * Every mutating operation has type `Db → Except Err α × Db`; a thrown
    JS error is `(.error e, db)` with `db` the state at the throw point,
    so "state unchanged on failure" is a real statement, not an artifact.
  * The source raises plain `Error(message)` values with pairwise
    distinct messages; each distinct message is one constructor of `Err`.
  * SQL semantics: `INSERT` appends, `DELETE ... WHERE` filters,
    `UPDATE ... WHERE` maps, `SELECT ... WHERE id = ?` is `find?`,
    `COUNT(*)` is `countP`, and `ORDER BY createdAt DESC LIMIT 1` takes
    the row with the strictly largest timestamp (timestamps are distinct
    by clock monotonicity).
-/

namespace StateGame

/-- Result of `SpottedStateRepository.getGameProgress`
    (`models/types.GameProgress`). -/
structure GameProgress where
  found : Nat
  total : Nat
  percentage : Nat
  deriving Repr, DecidableEq

/-- A row of the `games` table (`models/types.Game`).  `createdAt` is the
    clock value at insert time; ids are generated from the same clock so a
    `Nat` id stands in for the `game_${Date.now()}_...` string. -/
structure Game where
  id : Nat
  name : String
  startDate : String
  endDate : Option String
  startLocation : String
  destination : String
  isComplete : Bool
  createdAt : Nat
  deriving Repr, DecidableEq

/-- A row of the `spotted_states` table (`models/types.SpottedState`). -/
structure SpottedState where
  id : Nat
  gameId : Nat
  stateCode : String
  spottedAt : Nat
  deriving Repr, DecidableEq

/-- The embedded store: both tables plus the monotone insert clock. -/
structure Db where
  games : List Game
  spotted : List SpottedState
  clock : Nat
  deriving Repr, DecidableEq

/-- Each distinct `throw new Error(message)` in the core is one
    constructor; callers distinguish failures by these messages. -/
inductive Err where
  /-- `State X has already been spotted in this game` — raised by
      `SpottedStateRepository.addSpottedState` on the UNIQUE(gameId,
      stateCode) constraint failure. -/
  | duplicateObservation (stateCode : String)
  /-- `Game name is required` -/
  | nameRequired
  /-- `Start date is required` -/
  | startDateRequired
  /-- `Start location is required` -/
  | startLocationRequired
  /-- `Destination is required` -/
  | destinationRequired
  /-- `Invalid start date format` -/
  | invalidStartDate
  /-- `Invalid end date format` -/
  | invalidEndDate
  /-- `End date must be after start date` -/
  | endDateNotAfterStart
  /-- `There is already an active game. ...` -/
  | activeGameExists
  /-- `Invalid state code: X` -/
  | invalidStateCode (code : String)
  /-- `Game not found` -/
  | gameNotFound
  /-- `Cannot modify states in a completed game` -/
  | cannotModifyCompletedGame
  /-- `Game is already complete` -/
  | gameAlreadyComplete
  /-- `No valid fields to update` -/
  | noValidFieldsToUpdate
  deriving Repr, DecidableEq

/-- Modelled from the spec: the static 50-entry state reference set
    (`US_STATES` in `utils/constants`, a file whose body is not among the
    sources; the spec fixes it as the immutable table of exactly 50
    two-letter US state codes with full names).  Only the codes are
    consumed by the logic embedded here. -/
def US_STATES : List String :=
  ["AL", "AK", "AZ", "AR", "CA", "CO", "CT", "DE", "FL", "GA",
   "HI", "ID", "IL", "IN", "IA", "KS", "KY", "LA", "ME", "MD",
   "MA", "MI", "MN", "MS", "MO", "MT", "NE", "NV", "NH", "NJ",
   "NM", "NY", "NC", "ND", "OH", "OK", "OR", "PA", "RI", "SC",
   "SD", "TN", "TX", "UT", "VT", "VA", "WA", "WV", "WI", "WY"]

/-- `GameService.isValidStateCode` / the `US_STATES.find` check in
    `toggleStateSpotted`. -/
def isValidStateCode (code : String) : Bool :=
  US_STATES.contains code

/-! ## SpottedStateRepository -/

/-- `SELECT COUNT(*) FROM spotted_states WHERE gameId = ? AND stateCode = ?`. -/
def countObs (db : Db) (gameId : Nat) (code : String) : Nat :=
  db.spotted.countP (fun s => s.gameId == gameId && s.stateCode == code)

/-- `SpottedStateRepository.isStateSpotted`: the count is positive. -/
def isStateSpotted (db : Db) (gameId : Nat) (code : String) : Bool :=
  decide (0 < countObs db gameId code)

/-- `SpottedStateRepository.addSpottedState`: `INSERT INTO spotted_states`
    with a generated id and current timestamp; the UNIQUE(gameId,
    stateCode) constraint failure is translated at the boundary into the
    distinct "already been spotted" error, leaving the store unchanged. -/
def addSpottedState (db : Db) (gameId : Nat) (code : String) :
    Except Err Unit × Db :=
  if 0 < countObs db gameId code then
    (.error (.duplicateObservation code), db)
  else
    (.ok (),
     { db with
        spotted := db.spotted ++
          [{ id := db.clock, gameId := gameId, stateCode := code,
             spottedAt := db.clock }]
        clock := db.clock + 1 })

/-- `SpottedStateRepository.removeSpottedState`:
    `DELETE FROM spotted_states WHERE gameId = ? AND stateCode = ?`
    (a no-op when no row matches; never an error). -/
def removeSpottedState (db : Db) (gameId : Nat) (code : String) : Db :=
  { db with
     spotted := db.spotted.filter
       (fun s => !(s.gameId == gameId && s.stateCode == code)) }

/-- Insertion step for `ORDER BY spottedAt ASC`. -/
def insertBySpottedAt (s : SpottedState) :
    List SpottedState → List SpottedState
  | [] => [s]
  | t :: ts =>
    if s.spottedAt ≤ t.spottedAt then s :: t :: ts
    else t :: insertBySpottedAt s ts

/-- Sort by `spottedAt` ascending (insertion sort). -/
def sortBySpottedAt : List SpottedState → List SpottedState
  | [] => []
  | s :: ss => insertBySpottedAt s (sortBySpottedAt ss)

/-- `SpottedStateRepository.getSpottedStatesForGame`:
    `SELECT * FROM spotted_states WHERE gameId = ? ORDER BY spottedAt ASC`. -/
def getSpottedStatesForGame (db : Db) (gameId : Nat) : List SpottedState :=
  sortBySpottedAt (db.spotted.filter (fun s => s.gameId == gameId))

/-- `SELECT COUNT(*) FROM spotted_states WHERE gameId = ?`. -/
def countFound (db : Db) (gameId : Nat) : Nat :=
  db.spotted.countP (fun s => s.gameId == gameId)

/-- `Math.round((found / total) * 100)` for naturals (round half up; for
    `total = 50` the quotient `found * 2` is exact, so the JS float
    rounding agrees). -/
def roundPct (found total : Nat) : Nat :=
  (found * 100 * 2 + total) / (total * 2)

/-- `SpottedStateRepository.getGameProgress`: counts observations for the
    game (no existence check on the game itself) against the hardcoded
    total of 50. -/
def getGameProgress (db : Db) (gameId : Nat) : GameProgress :=
  let found := countFound db gameId
  { found := found, total := 50, percentage := roundPct found 50 }

/-- `SpottedStateRepository.toggleStateSpotted`: check-then-act — remove
    and return `false` when present, add and return `true` when absent. -/
def toggleStateSpotted (db : Db) (gameId : Nat) (code : String) :
    Except Err Bool × Db :=
  if isStateSpotted db gameId code then
    (.ok false, removeSpottedState db gameId code)
  else
    match addSpottedState db gameId code with
    | (.ok _, db') => (.ok true, db')
    | (.error e, db') => (.error e, db')

/-! ## GameRepository -/

/-- `GameRepository.getGameById`: `SELECT * FROM games WHERE id = ?`. -/
def getGameById (db : Db) (id : Nat) : Option Game :=
  db.games.find? (fun g => g.id == id)

/-- Input to `GameRepository.createGame` (`Game` minus id and createdAt). -/
structure GameData where
  name : String
  startDate : String
  endDate : Option String
  startLocation : String
  destination : String
  isComplete : Bool
  deriving Repr, DecidableEq

/-- `GameRepository.createGame`: generates id and `createdAt` from the
    clock and inserts.  The insert parameter list passes
    `game.endDate || null`, so an empty-string end date is stored as NULL. -/
def repoCreateGame (db : Db) (d : GameData) : Game × Db :=
  let game : Game :=
    { id := db.clock, name := d.name, startDate := d.startDate,
      endDate := match d.endDate with
                 | some "" => none
                 | e => e,
      startLocation := d.startLocation, destination := d.destination,
      isComplete := d.isComplete, createdAt := db.clock }
  (game, { db with games := db.games ++ [game], clock := db.clock + 1 })

/-- The partial-update argument of `GameRepository.updateGame`
    (`Partial<Game>`): `none` marks a field the caller did not supply.
    `id` and `createdAt` may be supplied by the caller but are not in the
    `allowedFields` list of the repository. -/
structure GameUpdates where
  id : Option Nat := none
  name : Option String := none
  startDate : Option String := none
  endDate : Option String := none
  startLocation : Option String := none
  destination : Option String := none
  isComplete : Option Bool := none
  createdAt : Option Nat := none
  deriving Repr, DecidableEq

/-- The `updateFields` list built by `updateGame` is nonempty: at least
    one supplied field is among name, startDate, endDate, startLocation,
    destination, isComplete. -/
def hasValidUpdateField (u : GameUpdates) : Bool :=
  u.name.isSome || u.startDate.isSome || u.endDate.isSome ||
  u.startLocation.isSome || u.destination.isSome || u.isComplete.isSome

/-- The effect of the generated `UPDATE games SET ... WHERE id = ?` on one
    matching row: each supplied allowed field overwrites the column. -/
def applyUpdates (u : GameUpdates) (g : Game) : Game :=
  { g with
     name := u.name.getD g.name,
     startDate := u.startDate.getD g.startDate,
     endDate := match u.endDate with
                | some e => some e
                | none => g.endDate,
     startLocation := u.startLocation.getD g.startLocation,
     destination := u.destination.getD g.destination,
     isComplete := u.isComplete.getD g.isComplete }

/-- `GameRepository.updateGame`: collects supplied allowed fields, throws
    `No valid fields to update` when that set is empty, else runs the
    `UPDATE ... WHERE id = ?`. -/
def updateGame (db : Db) (id : Nat) (u : GameUpdates) :
    Except Err Unit × Db :=
  if hasValidUpdateField u then
    (.ok (),
     { db with
        games := db.games.map (fun g => if g.id == id then applyUpdates u g else g) })
  else
    (.error .noValidFieldsToUpdate, db)

/-- `GameRepository.deleteGame`: `DELETE FROM games WHERE id = ?`. -/
def repoDeleteGame (db : Db) (id : Nat) : Db :=
  { db with games := db.games.filter (fun g => !(g.id == id)) }

/-- `GameRepository.getActiveGame`: `SELECT * FROM games WHERE
    isComplete = 0 ORDER BY createdAt DESC LIMIT 1` — the incomplete game
    with the largest `createdAt` (timestamps are distinct). -/
def getActiveGame (db : Db) : Option Game :=
  (db.games.filter (fun g => !g.isComplete)).foldl
    (fun acc g =>
      match acc with
      | none => some g
      | some b => if b.createdAt < g.createdAt then some g else some b)
    none

/-- `GameRepository.markGameComplete`:
    `UPDATE games SET isComplete = 1 WHERE id = ?`. -/
def markGameComplete (db : Db) (id : Nat) : Db :=
  { db with
     games := db.games.map
       (fun g => if g.id == id then { g with isComplete := true } else g) }

/-! ## GameService -/

/-- Input to `GameService.createGame` (`CreateGameData`): `endDate` is the
    optional field; `some ""` models a supplied but empty string, which is
    falsy in the `if (gameData.endDate)` guard of the source. -/
structure CreateGameData where
  name : String
  startDate : String
  endDate : Option String
  startLocation : String
  destination : String
  deriving Repr, DecidableEq

/-- The JS `String.prototype.trim`: strip leading and trailing whitespace
    (expressed on the character list so that it evaluates by kernel
    reduction). -/
def jsTrim (s : String) : String :=
  ⟨((s.data.dropWhile Char.isWhitespace).reverse.dropWhile
      Char.isWhitespace).reverse⟩

/-- JS truthiness of the optional `endDate` string: present and nonempty. -/
def endDateTruthy : Option String → Bool
  | some e => e ≠ ""
  | none => false

/-- `GameService.createGame`, parameterized by the calendar-date parser
    `parse` standing for the JS `new Date(s)` / `isNaN(getTime())` pair
    (an external library facility; `parse s = some t` means the string
    parses to timestamp `t`, `none` means `NaN`).  Validation errors are
    raised in source order; then the active-game exclusivity check; then
    the repository insert of the trimmed data with `isComplete := false`. -/
def serviceCreateGame (parse : String → Option Int) (db : Db)
    (d : CreateGameData) : Except Err Game × Db :=
  if jsTrim d.name == "" then (.error .nameRequired, db)
  else if d.startDate == "" then (.error .startDateRequired, db)
  else if jsTrim d.startLocation == "" then (.error .startLocationRequired, db)
  else if jsTrim d.destination == "" then (.error .destinationRequired, db)
  else
    match parse d.startDate with
    | none => (.error .invalidStartDate, db)
    | some sd =>
      if endDateTruthy d.endDate then
        match parse (d.endDate.getD "") with
        | none => (.error .invalidEndDate, db)
        | some ed =>
          if ed ≤ sd then (.error .endDateNotAfterStart, db)
          else
            match getActiveGame db with
            | some _ => (.error .activeGameExists, db)
            | none =>
              let (g, db') := repoCreateGame db
                { name := jsTrim d.name, startDate := d.startDate,
                  endDate := d.endDate, startLocation := jsTrim d.startLocation,
                  destination := jsTrim d.destination, isComplete := false }
              (.ok g, db')
      else
        match getActiveGame db with
        | some _ => (.error .activeGameExists, db)
        | none =>
          let (g, db') := repoCreateGame db
            { name := jsTrim d.name, startDate := d.startDate,
              endDate := d.endDate, startLocation := jsTrim d.startLocation,
              destination := jsTrim d.destination, isComplete := false }
          (.ok g, db')

/-- `GameService.toggleStateSpotted`: validate the state code against the
    reference set, require the game to exist and not be complete, delegate
    to the repository toggle, recompute progress, and auto-complete the
    game when `found == total` and it was not already complete. -/
def serviceToggleStateSpotted (db : Db) (gameId : Nat) (code : String) :
    Except Err Bool × Db :=
  if !isValidStateCode code then (.error (.invalidStateCode code), db)
  else
    match getGameById db gameId with
    | none => (.error .gameNotFound, db)
    | some game =>
      if game.isComplete then (.error .cannotModifyCompletedGame, db)
      else
        match toggleStateSpotted db gameId code with
        | (.error e, db') => (.error e, db')
        | (.ok isNowSpotted, db') =>
          let progress := getGameProgress db' gameId
          if progress.found == progress.total && !game.isComplete then
            (.ok isNowSpotted, markGameComplete db' gameId)
          else
            (.ok isNowSpotted, db')

/-- `GameService.completeGame`: manual completion; requires the game to
    exist and not already be complete. -/
def serviceCompleteGame (db : Db) (gameId : Nat) : Except Err Unit × Db :=
  match getGameById db gameId with
  | none => (.error .gameNotFound, db)
  | some game =>
    if game.isComplete then (.error .gameAlreadyComplete, db)
    else (.ok (), markGameComplete db gameId)

/-- `GameService.deleteGame`: requires the game to exist, removes each of
    its spotted states first, then deletes the game row. -/
def serviceDeleteGame (db : Db) (gameId : Nat) : Except Err Unit × Db :=
  match getGameById db gameId with
  | none => (.error .gameNotFound, db)
  | some _ =>
    let db1 := (getSpottedStatesForGame db gameId).foldl
      (fun d s => removeSpottedState d gameId s.stateCode) db
    (.ok (), repoDeleteGame db1 gameId)

/-- Sequencing of `GameService.toggleStateSpotted` calls over a list of
    state codes, short-circuiting on the first error (each call awaited in
    turn by the caller). -/
def toggleAll (db : Db) (gameId : Nat) : List String → Except Err Unit × Db
  | [] => (.ok (), db)
  | c :: cs =>
    match serviceToggleStateSpotted db gameId c with
    | (.ok _, db') => toggleAll db' gameId cs
    | (.error e, db') => (.error e, db')

/-! ## GameCompletionService -/

/-- `AchievementLevel` from `GameCompletionService`. -/
inductive AchievementLevel where
  | bronze
  | silver
  | gold
  deriving Repr, DecidableEq

/-- `GameCompletionService.getAchievementLevel`: highest tier first;
    counts below 25 fall through to the bronze default. -/
def getAchievementLevel (statesFound : Nat) : AchievementLevel :=
  if statesFound ≥ 50 then .gold
  else if statesFound ≥ 40 then .silver
  else if statesFound ≥ 25 then .bronze
  else .bronze

/-! ## DatabaseMigrations -/

/-- A `Migration` entry: version, name, forward DDL, optional backward
    DDL. -/
structure Migration where
  version : Nat
  name : String
  up : String
  down : Option String
  deriving Repr, DecidableEq

/-- A row of the `migrations` ledger table (the `executed_at` timestamp
    plays no role in version computation and is omitted). -/
structure MigrationRow where
  version : Nat
  name : String
  deriving Repr, DecidableEq

/-- Migration-visible store state: the ledger plus the log of forward DDL
    statements executed so far (the schema state abstraction). -/
structure MigrationState where
  ledger : List MigrationRow
  executed : List String
  deriving Repr, DecidableEq

/-- The hardcoded migration list of `DatabaseMigrations.getMigrations`:
    a single version-1 `Initial schema` migration. -/
def migrationsList : List Migration :=
  [{ version := 1, name := "Initial schema",
     up := "CREATE TABLE IF NOT EXISTS games ...; CREATE TABLE IF NOT EXISTS spotted_states ...; CREATE INDEX ...",
     down := some "DROP TABLE IF EXISTS spotted_states; DROP TABLE IF EXISTS games;" }]

/-- `DatabaseMigrations.getCurrentVersion`:
    `SELECT MAX(version) FROM migrations`, with `|| 0` turning a NULL max
    (empty ledger) into 0. -/
def getCurrentVersion (ms : MigrationState) : Nat :=
  ms.ledger.foldl (fun acc r => max acc r.version) 0

/-- The pending set computed by `runMigrations`:
    `migrations.filter(m => m.version > currentVersion)`. -/
def pendingMigrations (ms : MigrationState) : List Migration :=
  migrationsList.filter (fun m => m.version > getCurrentVersion ms)

/-- `DatabaseMigrations.executeMigration`: run the forward statement, then
    append the ledger row. -/
def executeMigration (ms : MigrationState) (m : Migration) : MigrationState :=
  { ledger := ms.ledger ++ [{ version := m.version, name := m.name }],
    executed := ms.executed ++ [m.up] }

/-- `DatabaseMigrations.runMigrations`: ensure the ledger table, compute
    the pending migrations from the current version, and execute them in
    list order. -/
def runMigrations (ms : MigrationState) : MigrationState :=
  (pendingMigrations ms).foldl executeMigration ms

/-! ## Derived predicates used by the theorems -/

/-- The active-trip exclusivity invariant: at most one game row has
    `isComplete = false`. -/
def atMostOneActive (db : Db) : Prop :=
  db.games.countP (fun g => !g.isComplete) ≤ 1

instance : DecidablePred atMostOneActive := fun d =>
  inferInstanceAs (Decidable (d.games.countP (fun g => !g.isComplete) ≤ 1))

/-- The input passes every validation check of `GameService.createGame`
    under the date parser `parse`: required fields nonempty after trimming
    (startDate checked untrimmed, as in the source), startDate parseable,
    and a truthy endDate parseable and strictly after startDate. -/
def validCreateInput (parse : String → Option Int) (d : CreateGameData) : Prop :=
  jsTrim d.name ≠ "" ∧ d.startDate ≠ "" ∧ jsTrim d.startLocation ≠ "" ∧
  jsTrim d.destination ≠ "" ∧
  ∃ sd, parse d.startDate = some sd ∧
    (endDateTruthy d.endDate = true →
      ∃ ed, parse (d.endDate.getD "") = some ed ∧ sd < ed)

/-- A concrete date parser used to instantiate the theorems that are
    parametric in the JS date library: two fixed parseable dates, all other
    strings fail to parse. -/
def sampleParse : String → Option Int := fun s =>
  if s == "2024-01-01" then some 0
  else if s == "2024-02-01" then some 31
  else none

/-! ## Theorems -/

/-- Claim C2: the achievement-tier classification is a pure function of
    the states-found count: bronze on [25, 40), silver on [40, 50), gold
    exactly at 50, and (preserved source behavior) bronze below 25;
    boundary values 24, 25, 40, 50 are exact. -/
theorem C2_achievementTier_boundaries (n : Nat) (h : n ≤ 50) :
    (getAchievementLevel n = .gold ↔ n = 50) ∧
    (getAchievementLevel n = .silver ↔ 40 ≤ n ∧ n < 50) ∧
    (getAchievementLevel n = .bronze ↔ n < 40) ∧
    getAchievementLevel 24 = .bronze ∧
    getAchievementLevel 25 = .bronze ∧
    getAchievementLevel 40 = .silver ∧
    getAchievementLevel 50 = .gold := by
  interval_cases n <;> decide

/-- Witness for C2 at the concrete count 50. -/
theorem C2_achievementTier_boundaries_witness :
    (getAchievementLevel 50 = .gold ↔ 50 = 50) ∧
    (getAchievementLevel 50 = .silver ↔ 40 ≤ 50 ∧ 50 < 50) ∧
    (getAchievementLevel 50 = .bronze ↔ 50 < 40) ∧
    getAchievementLevel 24 = .bronze ∧
    getAchievementLevel 25 = .bronze ∧
    getAchievementLevel 40 = .silver ∧
    getAchievementLevel 50 = .gold :=
  C2_achievementTier_boundaries 50 (by decide)

/-- Claim C10: for a gameId matching no game row and owning no
    observations, `getGameProgress` does not fail — the COUNT query makes
    no existence check — and reports found 0, total 50, percentage 0. -/
theorem C10_progress_of_unknown_game (db : Db) (gameId : Nat)
    (hg : ∀ g ∈ db.games, g.id ≠ gameId)
    (hs : ∀ s ∈ db.spotted, s.gameId ≠ gameId) :
    getGameById db gameId = none ∧
    getGameProgress db gameId = { found := 0, total := 50, percentage := 0 } := by
  have hc : countFound db gameId = 0 := by
    rw [countFound, List.countP_eq_zero]
    intro s hsm
    simpa using hs s hsm
  refine ⟨?_, ?_⟩
  · rw [getGameById, List.find?_eq_none]
    intro g hgm
    simpa using hg g hgm
  · simp [getGameProgress, hc, roundPct]

/-- Witness for C10 on the empty store and gameId 7. -/
theorem C10_progress_of_unknown_game_witness :
    getGameById ⟨[], [], 0⟩ 7 = none ∧
    getGameProgress ⟨[], [], 0⟩ 7 = { found := 0, total := 50, percentage := 0 } :=
  C10_progress_of_unknown_game ⟨[], [], 0⟩ 7 (by simp) (by simp)

/-- Claim C3: adding an already-present (gameId, stateCode) pair fails
    with the distinct duplicate-observation error and leaves the store
    unchanged; in particular the second of two `addSpottedState` calls
    with the same pair always raises it. -/
theorem C3_duplicate_add_raises (db : Db) (gameId : Nat) (code : String) :
    (isStateSpotted db gameId code = true →
      addSpottedState db gameId code = (.error (.duplicateObservation code), db)) ∧
    (∀ u db1, addSpottedState db gameId code = (.ok u, db1) →
      addSpottedState db1 gameId code = (.error (.duplicateObservation code), db1)) := by
  constructor
  · intro h
    have hpos : 0 < countObs db gameId code := by
      simpa [isStateSpotted] using h
    simp [addSpottedState, hpos]
  · intro u db1 h
    by_cases hpos : 0 < countObs db gameId code
    · simp [addSpottedState, hpos] at h
    · rw [addSpottedState, if_neg hpos] at h
      obtain ⟨-, rfl⟩ : (() : Unit) = u ∧ _ = db1 := by
        simpa [Prod.ext_iff] using h
      have hpos1 : 0 < countObs
          { db with
             spotted := db.spotted ++
               [{ id := db.clock, gameId := gameId, stateCode := code,
                  spottedAt := db.clock }]
             clock := db.clock + 1 } gameId code := by
        simp [countObs, List.countP_append]
      simp [addSpottedState, hpos1]

/-- A nonempty fold of the max-picking step of `getActiveGame` never
    yields `none`. -/
theorem getActiveGame_foldl_some (l : List Game) (b : Game) :
    (l.foldl
      (fun acc g =>
        match acc with
        | none => some g
        | some b => if b.createdAt < g.createdAt then some g else some b)
      (some b)).isSome = true := by
  induction l generalizing b with
  | nil => rfl
  | cons g gs ih =>
    simp only [List.foldl_cons]
    split <;> exact ih _

/-- `getActiveGame` is `none` exactly when no game row is incomplete. -/
theorem getActiveGame_eq_none_iff (db : Db) :
    getActiveGame db = none ↔ db.games.filter (fun g => !g.isComplete) = [] := by
  rw [getActiveGame]
  cases hf : db.games.filter (fun g => !g.isComplete) with
  | nil => simp
  | cons g gs =>
    simp only [List.foldl_cons]
    constructor
    · intro h
      have := getActiveGame_foldl_some gs g
      rw [h] at this
      cases this
    · intro h
      cases h

/-- Membership in the insertion step of the spottedAt ordering. -/
theorem mem_insertBySpottedAt (a s : SpottedState) (l : List SpottedState) :
    a ∈ insertBySpottedAt s l ↔ a = s ∨ a ∈ l := by
  induction l with
  | nil => simp [insertBySpottedAt]
  | cons t ts ih =>
    rw [insertBySpottedAt]
    split
    · simp
    · simp only [List.mem_cons, ih]
      tauto

/-- Sorting by spottedAt preserves membership. -/
theorem mem_sortBySpottedAt (a : SpottedState) (l : List SpottedState) :
    a ∈ sortBySpottedAt l ↔ a ∈ l := by
  induction l with
  | nil => simp [sortBySpottedAt]
  | cons s ss ih => simp [sortBySpottedAt, mem_insertBySpottedAt, ih]

/-- Claim C8: the migration runner is idempotent — after one `runMigrations`
    the pending set is empty, so a second run executes no statement,
    appends no ledger row, and leaves the state exactly as one run left it. -/
theorem C8_runMigrations_idempotent (ms : MigrationState) :
    pendingMigrations (runMigrations ms) = [] ∧
    runMigrations (runMigrations ms) = runMigrations ms ∧
    (runMigrations (runMigrations ms)).ledger = (runMigrations ms).ledger ∧
    (runMigrations (runMigrations ms)).executed = (runMigrations ms).executed := by
  have hpend : ∀ m : MigrationState, 1 ≤ getCurrentVersion m →
      pendingMigrations m = [] := by
    intro m hm
    have hnot : ¬ getCurrentVersion m < 1 := by omega
    simp [pendingMigrations, migrationsList, hnot]
  have main : pendingMigrations (runMigrations ms) = [] := by
    by_cases h : 1 ≤ getCurrentVersion ms
    · have h0 := hpend ms h
      rw [runMigrations, h0, List.foldl_nil]
      exact h0
    · have h0 : getCurrentVersion ms < 1 := by omega
      have hp : pendingMigrations ms = migrationsList := by
        simp [pendingMigrations, migrationsList, h0]
      apply hpend
      rw [runMigrations, hp, migrationsList, List.foldl_cons, List.foldl_nil]
      rw [getCurrentVersion, executeMigration, List.foldl_append]
      simp
  have hrun2 : runMigrations (runMigrations ms) = runMigrations ms := by
    rw [runMigrations, main, List.foldl_nil]
  exact ⟨main, hrun2, by rw [hrun2], by rw [hrun2]⟩

/-- Claim C6: toggling an unspotted (gameId, stateCode) pair twice returns
    `true` then `false`; afterwards `isStateSpotted` is false and the
    per-game listing contains no observation with that code. -/
theorem C6_toggle_twice_roundtrip (db : Db) (gameId : Nat) (code : String)
    (h : isStateSpotted db gameId code = false) :
    ∃ db1 db2,
      toggleStateSpotted db gameId code = (.ok true, db1) ∧
      toggleStateSpotted db1 gameId code = (.ok false, db2) ∧
      isStateSpotted db2 gameId code = false ∧
      ∀ s ∈ getSpottedStatesForGame db2 gameId, s.stateCode ≠ code := by
  have hc0 : ¬ 0 < countObs db gameId code := by
    simpa [isStateSpotted] using h
  set row : SpottedState :=
    { id := db.clock, gameId := gameId, stateCode := code,
      spottedAt := db.clock } with hrow
  set db1 : Db :=
    { db with spotted := db.spotted ++ [row], clock := db.clock + 1 } with hdb1
  have hadd : addSpottedState db gameId code = (.ok (), db1) := by
    rw [addSpottedState, if_neg hc0]
  have htog1 : toggleStateSpotted db gameId code = (.ok true, db1) := by
    rw [toggleStateSpotted, if_neg (by simp [h]), hadd]
  have hpos1 : 0 < countObs db1 gameId code := by
    simp [hdb1, countObs, List.countP_append, hrow]
  have hsp1 : isStateSpotted db1 gameId code = true := by
    simp [isStateSpotted, hpos1]
  set db2 : Db := removeSpottedState db1 gameId code with hdb2
  have htog2 : toggleStateSpotted db1 gameId code = (.ok false, db2) := by
    rw [toggleStateSpotted, if_pos hsp1]
  have hgone : ∀ s ∈ db2.spotted,
      ¬(s.gameId == gameId && s.stateCode == code) = true := by
    intro s hs
    rw [hdb2, removeSpottedState] at hs
    simp only [List.mem_filter, Bool.not_eq_true'] at hs
    simp [hs.2]
  refine ⟨db1, db2, htog1, htog2, ?_, ?_⟩
  · have : countObs db2 gameId code = 0 := by
      rw [countObs, List.countP_eq_zero]
      exact hgone
    simp [isStateSpotted, this]
  · intro s hs
    rw [getSpottedStatesForGame, mem_sortBySpottedAt, List.mem_filter] at hs
    have := hgone s hs.1
    intro hcode
    apply this
    simp [hcode, hs.2]

/-- Witness for C6 on the empty store, gameId 0, code CA. -/
theorem C6_toggle_twice_roundtrip_witness :
    ∃ db1 db2,
      toggleStateSpotted ⟨[], [], 0⟩ 0 "CA" = (.ok true, db1) ∧
      toggleStateSpotted db1 0 "CA" = (.ok false, db2) ∧
      isStateSpotted db2 0 "CA" = false ∧
      ∀ s ∈ getSpottedStatesForGame db2 0, s.stateCode ≠ "CA" :=
  C6_toggle_twice_roundtrip ⟨[], [], 0⟩ 0 "CA" (by decide)

/-- Claim C9: `updateGame` rejects an empty update with the
    no-valid-fields error (store unchanged); otherwise it touches only the
    games table, keeps its length, rewrites only rows whose id matches,
    and on a matching row changes exactly the supplied fields among
    name, startDate, endDate, startLocation, destination, isComplete — the
    id and creation timestamp are unchanged by every call, whatever the
    caller supplies. -/
theorem C9_updateGame_frame (db : Db) (gameId : Nat) (u : GameUpdates) :
    (u = ⟨none, none, none, none, none, none, none, none⟩ →
      updateGame db gameId u = (.error .noValidFieldsToUpdate, db)) ∧
    (updateGame db gameId u).2.spotted = db.spotted ∧
    (updateGame db gameId u).2.clock = db.clock ∧
    (updateGame db gameId u).2.games.length = db.games.length ∧
    (∀ (i : Nat) (g : Game), db.games[i]? = some g →
      ∃ g2, (updateGame db gameId u).2.games[i]? = some g2 ∧
        g2.id = g.id ∧
        g2.createdAt = g.createdAt ∧
        (g.id ≠ gameId → g2 = g) ∧
        (g.id = gameId → hasValidUpdateField u = true → g2 = applyUpdates u g) ∧
        (u.name = none → g2.name = g.name) ∧
        (u.startDate = none → g2.startDate = g.startDate) ∧
        (u.endDate = none → g2.endDate = g.endDate) ∧
        (u.startLocation = none → g2.startLocation = g.startLocation) ∧
        (u.destination = none → g2.destination = g.destination) ∧
        (u.isComplete = none → g2.isComplete = g.isComplete)) := by
  have hid : ∀ g, (applyUpdates u g).id = g.id := fun g => rfl
  have hcreated : ∀ g, (applyUpdates u g).createdAt = g.createdAt := fun g => rfl
  have hname : u.name = none → ∀ g, (applyUpdates u g).name = g.name := by
    intro h g; simp [applyUpdates, h]
  have hstart : u.startDate = none → ∀ g, (applyUpdates u g).startDate = g.startDate := by
    intro h g; simp [applyUpdates, h]
  have hend : u.endDate = none → ∀ g, (applyUpdates u g).endDate = g.endDate := by
    intro h g; simp [applyUpdates, h]
  have hloc : u.startLocation = none →
      ∀ g, (applyUpdates u g).startLocation = g.startLocation := by
    intro h g; simp [applyUpdates, h]
  have hdest : u.destination = none →
      ∀ g, (applyUpdates u g).destination = g.destination := by
    intro h g; simp [applyUpdates, h]
  have hcomp : u.isComplete = none →
      ∀ g, (applyUpdates u g).isComplete = g.isComplete := by
    intro h g; simp [applyUpdates, h]
  by_cases hv : hasValidUpdateField u = true
  · have hne : ¬ u = ⟨none, none, none, none, none, none, none, none⟩ := by
      intro he
      rw [he] at hv
      simp [hasValidUpdateField] at hv
    have hup : updateGame db gameId u =
        (.ok (),
         { db with
            games := db.games.map
                       (fun g => if g.id == gameId then applyUpdates u g else g) }) := by
      rw [updateGame, if_pos hv]
    refine ⟨fun he => absurd he hne, by rw [hup], by rw [hup], ?_, ?_⟩
    · rw [hup]; exact db.games.length_map _
    · intro i g hg
      have hget : (updateGame db gameId u).2.games[i]? =
          some ((fun g => if g.id == gameId then applyUpdates u g else g) g) := by
        rw [hup]
        simp only [List.getElem?_map, hg]
        rfl
      by_cases hmatch : g.id = gameId
      · have happ : (updateGame db gameId u).2.games[i]? =
            some (applyUpdates u g) := by
          rw [hget]; simp [hmatch]
        refine ⟨applyUpdates u g, happ,
          hid _, hcreated _, fun hc => absurd hmatch hc, fun _ _ => rfl,
          fun hn => hname hn _, fun hn => hstart hn _, fun hn => hend hn _,
          fun hn => hloc hn _, fun hn => hdest hn _, fun hn => hcomp hn _⟩
      · have happ : (updateGame db gameId u).2.games[i]? = some g := by
          rw [hget]; simp [hmatch]
        exact ⟨g, happ,
          rfl, rfl, fun _ => rfl, fun hc => absurd hc hmatch,
          fun _ => rfl, fun _ => rfl, fun _ => rfl, fun _ => rfl,
          fun _ => rfl, fun _ => rfl⟩
  · have hup : updateGame db gameId u = (.error .noValidFieldsToUpdate, db) := by
      rw [updateGame, if_neg hv]
    refine ⟨fun _ => hup, by rw [hup], by rw [hup], by rw [hup], ?_⟩
    intro i g hg
    rw [hup]
    exact ⟨g, hg, rfl, rfl, fun _ => rfl,
      fun _ hvt => absurd hvt hv,
      fun _ => rfl, fun _ => rfl, fun _ => rfl, fun _ => rfl,
      fun _ => rfl, fun _ => rfl⟩

/-- Witness for C9: the empty update on a one-game store is rejected with
    the no-valid-fields error and the store is unchanged. -/
theorem C9_updateGame_frame_witness :
    updateGame ⟨[⟨0, "Trip", "2024-01-01", none, "NY", "CA", false, 0⟩], [], 1⟩ 0
        ⟨none, none, none, none, none, none, none, none⟩
      = (.error .noValidFieldsToUpdate,
         ⟨[⟨0, "Trip", "2024-01-01", none, "NY", "CA", false, 0⟩], [], 1⟩) :=
  (C9_updateGame_frame
    ⟨[⟨0, "Trip", "2024-01-01", none, "NY", "CA", false, 0⟩], [], 1⟩ 0
    ⟨none, none, none, none, none, none, none, none⟩).1 rfl

/-- Claim C4: for every input passing validation, `createGame` succeeds
    exactly when no incomplete (active) game exists; when one does, it
    always fails with the active-game conflict error and inserts nothing
    (the store is returned unchanged). -/
theorem C4_createGame_active_exclusivity
    (parse : String → Option Int) (db : Db) (d : CreateGameData)
    (hv : validCreateInput parse d) :
    ((∃ g db2, serviceCreateGame parse db d = (.ok g, db2)) ↔
        getActiveGame db = none) ∧
    (getActiveGame db = none →
      ∃ g, g.isComplete = false ∧
        serviceCreateGame parse db d =
          (.ok g, { db with games := db.games ++ [g], clock := db.clock + 1 })) ∧
    (∀ g0, getActiveGame db = some g0 →
      serviceCreateGame parse db d = (.error .activeGameExists, db)) := by
  obtain ⟨h1, h2, h3, h4, sd, hsd, hend⟩ := hv
  have hb1 : (jsTrim d.name == "") = false := by simpa using h1
  have hb2 : (d.startDate == "") = false := by simpa using h2
  have hb3 : (jsTrim d.startLocation == "") = false := by simpa using h3
  have hb4 : (jsTrim d.destination == "") = false := by simpa using h4
  have hred : serviceCreateGame parse db d =
      (match getActiveGame db with
       | some _ => (.error .activeGameExists, db)
       | none =>
         let p := repoCreateGame db
           { name := jsTrim d.name, startDate := d.startDate,
             endDate := d.endDate, startLocation := jsTrim d.startLocation,
             destination := jsTrim d.destination, isComplete := false }
         (.ok p.1, p.2)) := by
    by_cases he : endDateTruthy d.endDate = true
    · obtain ⟨ed, hed, hlt⟩ := hend he
      have hnle : ¬ ed ≤ sd := by omega
      cases hga : getActiveGame db with
      | some g0 => simp [serviceCreateGame, hb1, hb2, hb3, hb4, hsd, he, hed, hnle, hga]
      | none => simp [serviceCreateGame, hb1, hb2, hb3, hb4, hsd, he, hed, hnle, hga]
    · cases hga : getActiveGame db with
      | some g0 => simp [serviceCreateGame, hb1, hb2, hb3, hb4, hsd, he, hga]
      | none => simp [serviceCreateGame, hb1, hb2, hb3, hb4, hsd, he, hga]
  refine ⟨?_, ?_, ?_⟩
  · constructor
    · rintro ⟨g, db2, hok⟩
      cases hga : getActiveGame db with
      | none => rfl
      | some g0 =>
        rw [hred, hga] at hok
        simp at hok
    · intro hn
      rw [hred, hn]
      exact ⟨_, _, rfl⟩
  · intro hn
    rw [hred, hn]
    exact ⟨_, rfl, rfl⟩
  · intro g0 hga
    rw [hred, hga]

/-- Witness for C4 on the empty store with the end-to-end scenario input
    (name Road Trip, start 2024-01-01, New York to California). -/
theorem C4_createGame_active_exclusivity_witness :
    ((∃ g db2, serviceCreateGame sampleParse ⟨[], [], 0⟩
        ⟨"Road Trip", "2024-01-01", none, "New York", "California"⟩
          = (.ok g, db2)) ↔
      getActiveGame ⟨[], [], 0⟩ = none) ∧
    (getActiveGame ⟨[], [], 0⟩ = none →
      ∃ g, g.isComplete = false ∧
        serviceCreateGame sampleParse ⟨[], [], 0⟩
          ⟨"Road Trip", "2024-01-01", none, "New York", "California"⟩
          = (.ok g, { games := [g], spotted := [], clock := 1 })) ∧
    (∀ g0, getActiveGame ⟨[], [], 0⟩ = some g0 →
      serviceCreateGame sampleParse ⟨[], [], 0⟩
        ⟨"Road Trip", "2024-01-01", none, "New York", "California"⟩
        = (.error .activeGameExists, ⟨[], [], 0⟩)) :=
  C4_createGame_active_exclusivity sampleParse ⟨[], [], 0⟩
    ⟨"Road Trip", "2024-01-01", none, "New York", "California"⟩
    ⟨by decide, by decide, by decide, by decide, 0, by decide,
     fun h => absurd h (by decide)⟩

/-- `addSpottedState` never touches the games table. -/
theorem addSpottedState_snd_games (db : Db) (gameId : Nat) (code : String) :
    (addSpottedState db gameId code).2.games = db.games := by
  rw [addSpottedState]
  split <;> rfl

/-- The repository toggle never touches the games table. -/
theorem toggleStateSpotted_snd_games (db : Db) (gameId : Nat) (code : String) :
    (toggleStateSpotted db gameId code).2.games = db.games := by
  rw [toggleStateSpotted]
  split
  · rfl
  · rcases hadd : addSpottedState db gameId code with ⟨res, db2⟩
    have hg : db2.games = db.games := by
      have := addSpottedState_snd_games db gameId code
      rw [hadd] at this
      exact this
    cases res <;> simpa using hg

/-- Marking a game complete cannot increase the number of incomplete
    rows. -/
theorem countP_incomplete_markGameComplete (db : Db) (gameId : Nat) :
    (markGameComplete db gameId).games.countP (fun g => !g.isComplete) ≤
      db.games.countP (fun g => !g.isComplete) := by
  rw [markGameComplete]
  simp only [List.countP_map]
  apply List.countP_mono_left
  intro g hg hp
  simp only [Function.comp] at hp
  by_cases hid : (g.id == gameId) = true
  · rw [if_pos hid] at hp
    simp at hp
  · rwa [if_neg hid] at hp

/-- When `getActiveGame` finds nothing, no game row is incomplete. -/
theorem countP_incomplete_of_active_none (db : Db)
    (h : getActiveGame db = none) :
    db.games.countP (fun g => !g.isComplete) = 0 := by
  rw [getActiveGame_eq_none_iff] at h
  simp [List.countP_eq_length_filter, h]

/-- Removing spotted states never touches the games table, so neither does
    a fold of removals. -/
theorem foldl_removeSpottedState_games (l : List SpottedState) (db : Db)
    (gameId : Nat) :
    (l.foldl (fun d s => removeSpottedState d gameId s.stateCode) db).games
      = db.games := by
  induction l generalizing db with
  | nil => rfl
  | cons s ss ih =>
    rw [List.foldl_cons, ih]
    rfl

/-- The second component of `serviceCreateGame` is either the unchanged
    store (an error was thrown before any insert) or the store with one
    new incomplete game appended, the latter only when no active game
    existed. -/
theorem serviceCreateGame_snd (parse : String → Option Int) (db : Db)
    (d : CreateGameData) :
    (serviceCreateGame parse db d).2 = db ∨
    (getActiveGame db = none ∧ ∃ g : Game, g.isComplete = false ∧
      (serviceCreateGame parse db d).2 =
        { db with games := db.games ++ [g], clock := db.clock + 1 }) := by
  rw [serviceCreateGame]
  split
  · exact Or.inl rfl
  split
  · exact Or.inl rfl
  split
  · exact Or.inl rfl
  split
  · exact Or.inl rfl
  split
  · exact Or.inl rfl
  split
  · split
    · exact Or.inl rfl
    · split
      · exact Or.inl rfl
      · split
        · exact Or.inl rfl
        · next hga => exact Or.inr ⟨hga, _, rfl, rfl⟩
  · split
    · exact Or.inl rfl
    · next hga => exact Or.inr ⟨hga, _, rfl, rfl⟩

/-- Claim C7: every mutating service operation — createGame,
    toggleStateSpotted, completeGame, deleteGame — preserves the
    invariant that at most one game row is incomplete (the read-only
    queries are pure functions of the store and change nothing). -/
theorem C7_at_most_one_active_preserved
    (parse : String → Option Int) (db : Db) (d : CreateGameData)
    (gid1 gid2 gid3 : Nat) (code : String)
    (h : atMostOneActive db) :
    atMostOneActive (serviceCreateGame parse db d).2 ∧
    atMostOneActive (serviceToggleStateSpotted db gid1 code).2 ∧
    atMostOneActive (serviceCompleteGame db gid2).2 ∧
    atMostOneActive (serviceDeleteGame db gid3).2 := by
  refine ⟨?_, ?_, ?_, ?_⟩
  · rcases serviceCreateGame_snd parse db d with hc | ⟨hga, g, hgc, hc⟩
    · rw [atMostOneActive, hc]
      exact h
    · rw [atMostOneActive, hc]
      simp only [List.countP_append]
      rw [countP_incomplete_of_active_none db hga]
      simp [hgc]
  · rw [serviceToggleStateSpotted]
    split
    · exact h
    split
    · exact h
    split
    · exact h
    · split
      · next e db2 heq =>
        have hg2 : db2.games = db.games := by
          have hx := toggleStateSpotted_snd_games db gid1 code
          rw [heq] at hx
          exact hx
        show db2.games.countP (fun g => !g.isComplete) ≤ 1
        rw [hg2]
        exact h
      · next b db2 heq =>
        have hg2 : db2.games = db.games := by
          have hx := toggleStateSpotted_snd_games db gid1 code
          rw [heq] at hx
          exact hx
        dsimp only
        split
        · calc (markGameComplete db2 gid1).games.countP (fun g => !g.isComplete)
              ≤ db2.games.countP (fun g => !g.isComplete) :=
                countP_incomplete_markGameComplete db2 gid1
            _ ≤ 1 := by rw [hg2]; exact h
        · show db2.games.countP (fun g => !g.isComplete) ≤ 1
          rw [hg2]
          exact h
  · rw [serviceCompleteGame]
    split
    · exact h
    split
    · exact h
    · calc (markGameComplete db gid2).games.countP (fun g => !g.isComplete)
          ≤ db.games.countP (fun g => !g.isComplete) :=
            countP_incomplete_markGameComplete db gid2
        _ ≤ 1 := h
  · rw [serviceDeleteGame]
    split
    · exact h
    · rw [atMostOneActive]
      refine le_trans ((List.filter_sublist _).countP_le _) ?_
      rw [foldl_removeSpottedState_games]
      exact h

/-- Witness for C7 on the empty store (trivially at most one active). -/
theorem C7_at_most_one_active_preserved_witness :
    atMostOneActive (serviceCreateGame sampleParse ⟨[], [], 0⟩
      ⟨"Road Trip", "2024-01-01", none, "New York", "California"⟩).2 ∧
    atMostOneActive (serviceToggleStateSpotted ⟨[], [], 0⟩ 0 "CA").2 ∧
    atMostOneActive (serviceCompleteGame ⟨[], [], 0⟩ 1).2 ∧
    atMostOneActive (serviceDeleteGame ⟨[], [], 0⟩ 2).2 :=
  C7_at_most_one_active_preserved sampleParse ⟨[], [], 0⟩
    ⟨"Road Trip", "2024-01-01", none, "New York", "California"⟩
    0 1 2 "CA" (by decide)

/-- `markGameComplete` flips the completion flag of the row `getGameById`
    finds, and nothing else of it. -/
theorem getGameById_markGameComplete (db : Db) (gameId : Nat) :
    getGameById (markGameComplete db gameId) gameId =
      (getGameById db gameId).map (fun g => { g with isComplete := true }) := by
  simp only [getGameById, markGameComplete]
  rw [List.find?_map]
  have hcomp : ((fun g : Game => g.id == gameId) ∘
      (fun g : Game =>
        if g.id == gameId then { g with isComplete := true } else g)) =
      (fun g : Game => g.id == gameId) := by
    funext g
    by_cases hid : (g.id == gameId) = true
    · simp [Function.comp, hid]
    · simp [Function.comp, hid]
  rw [hcomp]
  cases hf : db.games.find? (fun g => g.id == gameId) with
  | none => rfl
  | some g =>
    have hpg := List.find?_some hf
    simp [hpg]
    intro hne
    exact absurd (by simpa using hpg) hne

/-- A per-pair observation count never exceeds the per-game count. -/
theorem countObs_le_countFound (db : Db) (gameId : Nat) (code : String) :
    countObs db gameId code ≤ countFound db gameId := by
  apply List.countP_mono_left
  intro s _ hp
  rw [Bool.and_eq_true] at hp
  exact hp.1

/-- One `serviceToggleStateSpotted` call on a valid, unspotted code of an
    existing incomplete game: it appends the observation row, and marks
    the game complete exactly when the new count reaches 50. -/
theorem serviceToggle_add_step (db : Db) (gid : Nat) (c : String) (game : Game)
    (hg : getGameById db gid = some game) (hnc : game.isComplete = false)
    (hv : isValidStateCode c = true) (hns : isStateSpotted db gid c = false) :
    (countFound db gid + 1 = 50 →
      serviceToggleStateSpotted db gid c =
        (.ok true, markGameComplete
          { db with
             spotted := db.spotted ++
               [{ id := db.clock, gameId := gid, stateCode := c,
                  spottedAt := db.clock }]
             clock := db.clock + 1 } gid)) ∧
    (countFound db gid + 1 ≠ 50 →
      serviceToggleStateSpotted db gid c =
        (.ok true,
         { db with
            spotted := db.spotted ++
              [{ id := db.clock, gameId := gid, stateCode := c,
                 spottedAt := db.clock }]
            clock := db.clock + 1 })) := by
  have hc0 : ¬ 0 < countObs db gid c := by
    simpa [isStateSpotted] using hns
  set db1 : Db :=
    { db with
       spotted := db.spotted ++
         [{ id := db.clock, gameId := gid, stateCode := c,
            spottedAt := db.clock }]
       clock := db.clock + 1 } with hdb1
  have htog : toggleStateSpotted db gid c = (.ok true, db1) := by
    rw [toggleStateSpotted, if_neg (by simp [hns]), addSpottedState, if_neg hc0]
  have hcf : countFound db1 gid = countFound db gid + 1 := by
    simp [hdb1, countFound, List.countP_append]
  have hred : serviceToggleStateSpotted db gid c =
      (if countFound db gid + 1 = 50
       then (.ok true, markGameComplete db1 gid)
       else (.ok true, db1)) := by
    rw [serviceToggleStateSpotted, if_neg (by simp [hv]), hg]
    dsimp only
    rw [if_neg (by simp [hnc]), htog]
    dsimp only [getGameProgress]
    rw [hcf, hnc]
    by_cases h50 : countFound db gid + 1 = 50
    · rw [if_pos h50, if_pos (by simp; omega)]
    · rw [if_neg h50, if_neg (by simp; omega)]
  constructor
  · intro h50
    rw [hred, if_pos h50]
  · intro h50
    rw [hred, if_neg h50]

/-- Toggling a duplicate-free list of valid, currently-unspotted codes of
    an existing incomplete game succeeds end to end, adds exactly one
    observation per code, and flips the completion flag exactly when the
    final count reaches 50 (which, by the count bound, can only happen on
    the last toggle). -/
theorem toggleAll_spec (codes : List String) :
    ∀ (db : Db) (gid : Nat) (game : Game),
      getGameById db gid = some game → game.isComplete = false →
      codes.Nodup → (∀ c ∈ codes, isValidStateCode c = true) →
      (∀ c ∈ codes, isStateSpotted db gid c = false) →
      countFound db gid + codes.length ≤ 50 →
      ∃ db2, toggleAll db gid codes = (.ok (), db2) ∧
        countFound db2 gid = countFound db gid + codes.length ∧
        ((codes ≠ [] ∧ countFound db gid + codes.length = 50 ∧
           getGameById db2 gid = some { game with isComplete := true }) ∨
         (countFound db gid + codes.length ≠ 50 ∧
           getGameById db2 gid = some game) ∨
         (codes = [] ∧ getGameById db2 gid = some game)) := by
  induction codes with
  | nil =>
    intro db gid game hg _ _ _ _ _
    exact ⟨db, rfl, by simp, Or.inr (Or.inr ⟨rfl, hg⟩)⟩
  | cons c cs ih =>
    intro db gid game hg hnc hnd hv hns hle
    have hvc : isValidStateCode c = true := hv c (by simp)
    have hnsc : isStateSpotted db gid c = false := hns c (by simp)
    set db1 : Db :=
      { db with
         spotted := db.spotted ++
           [{ id := db.clock, gameId := gid, stateCode := c,
              spottedAt := db.clock }]
         clock := db.clock + 1 } with hdb1
    have hcf1 : countFound db1 gid = countFound db gid + 1 := by
      simp [hdb1, countFound, List.countP_append]
    have hg1 : getGameById db1 gid = some game := hg
    by_cases h50 : countFound db gid + 1 = 50
    · have hcs : cs = [] := by
        cases cs with
        | nil => rfl
        | cons x xs =>
          simp only [List.length_cons] at hle
          omega
      subst hcs
      have hstep := (serviceToggle_add_step db gid c game hg hnc hvc hnsc).1 h50
      refine ⟨markGameComplete db1 gid, ?_, ?_, ?_⟩
      · simp only [toggleAll, hstep]
      · show countFound (markGameComplete db1 gid) gid = _
        have hsame : countFound (markGameComplete db1 gid) gid =
            countFound db1 gid := rfl
        rw [hsame, hcf1]
        simp
      · refine Or.inl ⟨by simp, by simpa using h50, ?_⟩
        rw [getGameById_markGameComplete, hg1]
        rfl
    · have hstep := (serviceToggle_add_step db gid c game hg hnc hvc hnsc).2 h50
      have hns1 : ∀ x ∈ cs, isStateSpotted db1 gid x = false := by
        intro x hx
        have hxc : (c == x) = false := by
          have : x ≠ c := by
            intro he
            subst he
            exact (List.nodup_cons.mp hnd).1 hx
          simpa using this.symm
        have hob : countObs db1 gid x = countObs db gid x := by
          simp [hdb1, countObs, List.countP_append, hxc]
        have hx0 := hns x (by simp [hx])
        simpa [isStateSpotted, hob] using hx0
      have hle1 : countFound db1 gid + cs.length ≤ 50 := by
        simp only [List.length_cons] at hle
        omega
      obtain ⟨db2, htall, hcnt, hdisj⟩ :=
        ih db1 gid game hg1 hnc (List.nodup_cons.mp hnd).2
          (fun x hx => hv x (by simp [hx])) hns1 hle1
      refine ⟨db2, ?_, ?_, ?_⟩
      · simp only [toggleAll, hstep]
        exact htall
      · rw [hcnt, hcf1]
        simp only [List.length_cons]
        omega
      · rcases hdisj with ⟨-, hsum, hby⟩ | ⟨hsum, hby⟩ | ⟨hnil, hby⟩
        · refine Or.inl ⟨by simp, ?_, hby⟩
          rw [hcf1] at hsum
          simp only [List.length_cons]
          omega
        · refine Or.inr (Or.inl ⟨?_, hby⟩)
          rw [hcf1] at hsum
          simp only [List.length_cons]
          omega
        · subst hnil
          refine Or.inr (Or.inl ⟨?_, hby⟩)
          simp only [List.length_cons, List.length_nil]
          omega

/-- Claim C1: starting from an existing, incomplete game with no
    observations, toggling 50 distinct valid state codes through the
    service succeeds, after which `getGameProgress` reports found 50 and
    percentage 100 and the completion flag is true — with no explicit
    `completeGame` call (`toggleAll` only invokes the toggle path). -/
theorem C1_fifty_toggles_complete (db : Db) (gid : Nat) (game : Game)
    (codes : List String)
    (hg : getGameById db gid = some game)
    (hnc : game.isComplete = false)
    (hzero : countFound db gid = 0)
    (hnd : codes.Nodup)
    (hv : ∀ c ∈ codes, isValidStateCode c = true)
    (hlen : codes.length = 50) :
    ∃ db2, toggleAll db gid codes = (.ok (), db2) ∧
      getGameProgress db2 gid = { found := 50, total := 50, percentage := 100 } ∧
      getGameById db2 gid = some { game with isComplete := true } := by
  have hns : ∀ c ∈ codes, isStateSpotted db gid c = false := by
    intro c _
    have := countObs_le_countFound db gid c
    rw [hzero] at this
    simp [isStateSpotted, Nat.le_zero.mp this]
  obtain ⟨db2, htall, hcnt, hdisj⟩ :=
    toggleAll_spec codes db gid game hg hnc hnd hv hns (by omega)
  have hc50 : countFound db2 gid = 50 := by
    rw [hcnt, hzero, hlen]
  refine ⟨db2, htall, ?_, ?_⟩
  · simp [getGameProgress, hc50, roundPct]
  · rcases hdisj with ⟨-, -, hby⟩ | ⟨hsum, -⟩ | ⟨hnil, -⟩
    · exact hby
    · rw [hzero, hlen] at hsum
      exact absurd rfl hsum
    · rw [hnil] at hlen
      simp at hlen

/-- Witness for C1: a fresh one-game store and the full 50-state code
    list, checked by evaluation. -/
theorem C1_fifty_toggles_complete_witness :
    ∃ db2, toggleAll
        ⟨[⟨0, "Road Trip", "2024-01-01", none, "NY", "CA", false, 0⟩], [], 1⟩
        0 US_STATES = (.ok (), db2) ∧
      getGameProgress db2 0 = { found := 50, total := 50, percentage := 100 } ∧
      getGameById db2 0 =
        some ⟨0, "Road Trip", "2024-01-01", none, "NY", "CA", true, 0⟩ :=
  C1_fifty_toggles_complete
    ⟨[⟨0, "Road Trip", "2024-01-01", none, "NY", "CA", false, 0⟩], [], 1⟩
    0 ⟨0, "Road Trip", "2024-01-01", none, "NY", "CA", false, 0⟩ US_STATES
    rfl rfl rfl (by decide) (by decide) rfl

/-- Witness for C3: a store holding the single observation (1, CA). -/
theorem C3_duplicate_add_raises_witness :
    addSpottedState ⟨[], [⟨0, 1, "CA", 0⟩], 1⟩ 1 "CA"
      = (.error (.duplicateObservation "CA"), ⟨[], [⟨0, 1, "CA", 0⟩], 1⟩) :=
  (C3_duplicate_add_raises ⟨[], [⟨0, 1, "CA", 0⟩], 1⟩ 1 "CA").1 (by decide)

end StateGame
